import Mathlib

/-!
Shallow embedding of the MedSafe drug-interaction core
(`backend/app/services/drug_interactions.py` and
`backend/app/agents/clinical.py`) together with proofs of the
specification's testable properties.

Python strings are modelled as Lean `String`; `str.lower()` is modelled
as ASCII lower-casing (every string literal appearing in the program is
ASCII or already lower-case), `str.strip()` as removal of leading and
trailing whitespace, and the substring operator `in` as `py_in`.
The interaction index (a Python dict keyed by `f"{d1}|{d2}"` strings) is
modelled as a function from key character lists to optional records,
updated on insertion exactly as the dict is.
-/

/-- Table of ASCII upper/lower case letter pairs, used to model Python
`str.lower()` and `str.capitalize()` on the ASCII strings of the program. -/
def asciiCase : List (Char × Char) :=
  [('A', 'a'), ('B', 'b'), ('C', 'c'), ('D', 'd'), ('E', 'e'), ('F', 'f'),
   ('G', 'g'), ('H', 'h'), ('I', 'i'), ('J', 'j'), ('K', 'k'), ('L', 'l'),
   ('M', 'm'), ('N', 'n'), ('O', 'o'), ('P', 'p'), ('Q', 'q'), ('R', 'r'),
   ('S', 's'), ('T', 't'), ('U', 'u'), ('V', 'v'), ('W', 'w'), ('X', 'x'),
   ('Y', 'y'), ('Z', 'z')]

/-- Lower-case a single character (ASCII model of Python lower-casing). -/
def lowerChar (c : Char) : Char :=
  match asciiCase.find? (fun p => p.1 == c) with
  | some p => p.2
  | none => c

/-- Upper-case a single character (ASCII model, used by `str.capitalize()`). -/
def upperChar (c : Char) : Char :=
  match asciiCase.find? (fun p => p.2 == c) with
  | some p => p.1
  | none => c

/-- Model of Python `str.lower()`. -/
def py_lower (s : String) : String :=
  String.mk (s.data.map lowerChar)

/-- Whitespace characters removed by Python `str.strip()`. -/
def isSpaceChar (c : Char) : Bool :=
  c == ' ' || c == '\t' || c == '\n' || c == '\r' || c.toNat == 11 || c.toNat == 12

/-- Model of Python `str.strip()`: drop leading and trailing whitespace. -/
def py_strip (s : String) : String :=
  String.mk (List.rdropWhile isSpaceChar (s.data.dropWhile isSpaceChar))

/-- Model of Python `str.capitalize()`: first character upper-cased, the
rest lower-cased. -/
def py_capitalize (s : String) : String :=
  match s.data with
  | [] => s
  | c :: rest => String.mk (upperChar c :: rest.map lowerChar)

/-- Boolean test that `needle` occurs at the start of `hay`. -/
def listPre : List Char → List Char → Bool
  | [], _ => true
  | _ :: _, [] => false
  | a :: as, b :: bs => a == b && listPre as bs

/-- Boolean substring test on character lists. -/
def listSub (needle : List Char) : List Char → Bool
  | [] => listPre needle []
  | h :: t => listPre needle (h :: t) || listSub needle t

/-- Model of the Python string operator `needle in haystack`. -/
def py_in (needle haystack : String) : Bool :=
  listSub needle.data haystack.data

/-- The `DRUG_SYNONYMS` table of `DrugInteractionService`, in source order:
commercial/popular names mapped to scientific names. -/
def drug_synonyms : List (String × String) :=
  [("aspirina", "acetylsalicylic acid"),
   ("aspirin", "acetylsalicylic acid"),
   ("aas", "acetylsalicylic acid"),
   ("ácido acetilsalicílico", "acetylsalicylic acid"),
   ("paracetamol", "acetaminophen"),
   ("tylenol", "acetaminophen"),
   ("parac humanoid", "acetaminophen"),
   ("metformina", "metformin"),
   ("glifage", "metformin"),
   ("losartana", "losartan"),
   ("losartan potássico", "losartan"),
   ("cozaar", "losartan"),
   ("ibuprofeno", "ibuprofen"),
   ("advil", "ibuprofen"),
   ("motrin", "ibuprofen"),
   ("amoxicilina", "amoxicillin"),
   ("dipirona", "metamizole"),
   ("novalgina", "metamizole"),
   ("omeprazol", "omeprazole"),
   ("sertralina", "sertraline"),
   ("zoloft", "sertraline"),
   ("fluoxetina", "fluoxetine"),
   ("prozac", "fluoxetine"),
   ("atorvastatina", "atorvastatin"),
   ("lipitor", "atorvastatin"),
   ("simvastatina", "simvastatin"),
   ("zocor", "simvastatin"),
   ("varfarina", "warfarin"),
   ("coumadin", "warfarin"),
   ("marevan", "warfarin"),
   ("diazepam", "diazepam"),
   ("valium", "diazepam"),
   ("clonazepam", "clonazepam"),
   ("rivotril", "clonazepam")]

/-- Embedding of `DrugInteractionService._normalize_drug_name`: lower-case
and strip the name, then replace it by the mapped scientific name on an
exact synonym-table hit. -/
def normalize_drug_name (name : String) : String :=
  let normalized := py_strip (py_lower name)
  match drug_synonyms.find? (fun p => p.1 == normalized) with
  | some p => p.2
  | none => normalized

/-- Critical-severity keywords of `_classify_severity`, in source order. -/
def critical_keywords : List String :=
  ["contraindicated", "contraindication", "fatal", "life-threatening",
   "severe", "serious", "major", "cardiotoxic", "hepatotoxic",
   "nephrotoxic", "neurotoxic", "may cause death"]

/-- High-severity keywords of `_classify_severity`, in source order. -/
def high_keywords : List String :=
  ["significant", "increase the risk", "adverse effects",
   "toxicity", "dangerous", "harmful", "may increase",
   "serum concentration", "metabolism"]

/-- Medium-severity keywords of `_classify_severity`, in source order. -/
def medium_keywords : List String :=
  ["moderate", "caution", "monitor", "may decrease",
   "effectiveness", "therapeutic effect", "bioavailability"]

/-- Embedding of `DrugInteractionService._classify_severity`: keyword
classification of a free-text description, critical before high before
medium, defaulting to low. -/
def classify_severity (description : String) : String :=
  let d := py_lower description
  if critical_keywords.any (fun k => py_in k d) then "critical"
  else if high_keywords.any (fun k => py_in k d) then "high"
  else if medium_keywords.any (fun k => py_in k d) then "medium"
  else "low"

/-- Embedding of `DrugInteractionService._classify_category`: keyword
classification of a free-text description into a category label. -/
def classify_category (description : String) : String :=
  let d := py_lower description
  if py_in "cardiotoxic" d || py_in "cardiac" d then "Cardiovascular"
  else if py_in "hepatotoxic" d || py_in "liver" d then "Hepática"
  else if py_in "nephrotoxic" d || py_in "renal" d || py_in "kidney" d then "Renal"
  else if py_in "neurotoxic" d || py_in "cns" d || py_in "sedation" d then "Neurológica"
  else if py_in "photosensitiz" d then "Fotossensibilidade"
  else if py_in "metabolism" d || py_in "cyp" d then "Farmacocinética"
  else if py_in "bleeding" d || py_in "anticoagulant" d then "Coagulação"
  else "Farmacológica"

/-- One row of the interaction CSV: the fields `Drug 1`, `Drug 2` and
`Interaction Description` read by `_load_interactions`. -/
structure CsvRow where
  drug1 : String
  drug2 : String
  description : String
deriving DecidableEq

/-- The record stored in the interaction index for a row
(`interaction_data` in `_load_interactions`). -/
structure InteractionData where
  drug1 : String
  drug2 : String
  description : String
  severity : String
  category : String
deriving DecidableEq

/-- The record built by `_load_interactions` for one CSV row: raw names and
description, with severity and category classified from the description. -/
def row_data (row : CsvRow) : InteractionData :=
  { drug1 := row.drug1, drug2 := row.drug2, description := row.description,
    severity := classify_severity row.description,
    category := classify_category row.description }

/-- The interaction index: the Python dict keyed by `f"{d1}|{d2}"` strings,
modelled as a function from key character lists to optional records. -/
def Index : Type := List Char → Option InteractionData

/-- The composite dict key `f"{a}|{b}"`. -/
def mkKey (a b : String) : List Char :=
  a.data ++ '|' :: b.data

/-- Insertion of one CSV row into the index: the record is stored under
both key orderings (`key1` then `key2` in the source, so on a key clash the
`key2` write is the visible one). -/
def insert_row (m : Index) (row : CsvRow) : Index :=
  let d1 := normalize_drug_name row.drug1
  let d2 := normalize_drug_name row.drug2
  let data := row_data row
  fun k =>
    if k = mkKey d2 d1 then some data
    else if k = mkKey d1 d2 then some data
    else m k

/-- The index holding no interactions. -/
def empty_index : Index := fun _ => none

/-- Embedding of the loop body of `_load_interactions`: fold every CSV row
into an initially empty index. -/
def load_interactions (rows : List CsvRow) : Index :=
  rows.foldl insert_row empty_index

/-- Embedding of `_load_interactions` including its `except` branch: when
the dataset file is missing or unreadable (`none`), the cache is set to the
empty dict instead of propagating the exception. -/
def load_interactions_result : Option (List CsvRow) → Index
  | some rows => load_interactions rows
  | none => empty_index

/-- Embedding of `DrugInteractionService.find_interactions`: for each other
drug (skipping empty or whitespace-only entries), look up the composite key
of the two normalized names and collect the records found, in order. -/
def find_interactions (db : Index) (drug_name : String) (other_drugs : List String) :
    List InteractionData :=
  let drug_normalized := normalize_drug_name drug_name
  other_drugs.filterMap (fun other_drug =>
    if other_drug = "" ∨ py_strip other_drug = "" then none
    else db (mkKey drug_normalized (normalize_drug_name other_drug)))

/-- A contraindication finding as built by `analyze_contraindications` and
`_get_condition_contraindications`. -/
structure ContraFinding where
  type : String
  description : String
  severity : String
  source : String
  recommendation : String
deriving DecidableEq

/-- The `condition_drug_map` of `_get_condition_contraindications`, in
source (dict-insertion) order. -/
def condition_drug_map : List (String × List String) :=
  [("gravidez", ["methotrexate", "isotretinoin", "warfarin", "valproic acid"]),
   ("gestação", ["methotrexate", "isotretinoin", "warfarin", "valproic acid"]),
   ("pregnant", ["methotrexate", "isotretinoin", "warfarin", "valproic acid"]),
   ("insuficiência renal", ["metformin", "nsaid", "lithium"]),
   ("renal", ["metformin", "nsaid", "lithium"]),
   ("kidney", ["metformin", "nsaid", "lithium"]),
   ("insuficiência hepática", ["acetaminophen", "paracetamol", "statins"]),
   ("liver", ["acetaminophen", "paracetamol", "statins"]),
   ("hepática", ["acetaminophen", "paracetamol", "statins"])]

/-- Embedding of `_get_condition_contraindications`: for each condition,
for each map entry whose key occurs in the lower-cased stripped condition,
emit a high-severity finding for every contraindicated drug substring that
occurs in the normalized queried drug name. -/
def get_condition_contraindications (drug_normalized : String) (conditions : List String) :
    List ContraFinding :=
  conditions.flatMap (fun condition =>
    let condition_lower := py_strip (py_lower condition)
    condition_drug_map.flatMap (fun entry =>
      if py_in entry.1 condition_lower then
        entry.2.filterMap (fun contra_drug =>
          if py_in contra_drug drug_normalized then
            some { type := "Contraindicação por " ++ condition,
                   description := py_capitalize contra_drug ++
                     " pode ser contraindicado em pacientes com " ++ condition,
                   severity := "high",
                   source := "Diretrizes Clínicas",
                   recommendation := "Avaliar alternativas terapêuticas com médico" }
          else none)
      else []))

/-- Embedding of `DrugInteractionService.analyze_contraindications`: the
allergy findings (substring match either way between normalized allergy and
normalized drug name, severity critical) followed by the condition
findings. -/
def analyze_contraindications (drug_name : String) (patient_conditions allergies : List String) :
    List ContraFinding :=
  let drug_normalized := normalize_drug_name drug_name
  let allergy_findings := allergies.filterMap (fun allergy =>
    let allergy_normalized := normalize_drug_name allergy
    if py_in allergy_normalized drug_normalized ∨ py_in drug_normalized allergy_normalized then
      some { type := "Alergia Conhecida",
             description := "Paciente possui alergia conhecida a " ++ allergy,
             severity := "critical",
             source := "Histórico do Paciente",
             recommendation := "CONTRAINDICADO - Não administrar" }
    else none)
  allergy_findings ++ get_condition_contraindications drug_normalized patient_conditions

/-- Embedding of `DrugInteractionService.calculate_overall_risk`.  The
Python function reads only the `severity` field of each dict, so it is
parametric in the two finding types together with their severity
projections. -/
def calculate_overall_risk {α β : Type} (interactions : List α) (contraindications : List β)
    (sevI : α → String) (sevC : β → String) : String :=
  if contraindications.any (fun c => sevC c == "critical") then "critical"
  else if interactions.any (fun i => sevI i == "critical") then "critical"
  else if 1 ≤ (interactions.filter (fun i => sevI i == "high")).length +
             (contraindications.filter (fun c => sevC c == "high")).length then "high"
  else if 1 ≤ (interactions.filter (fun i => sevI i == "medium")).length +
             (contraindications.filter (fun c => sevC c == "medium")).length then "medium"
  else "low"

/-- An interaction finding as formatted by
`ClinicalRulesAgent.analyze_contraindications` (step 1). -/
structure InteractionFinding where
  interacting_drug : String
  effect : String
  severity : String
  mechanism : String
  recommendation : String
deriving DecidableEq

/-- Embedding of `ClinicalRulesAgent._get_interaction_recommendation`:
fixed severity-to-recommendation table with a generic default. -/
def get_interaction_recommendation (severity : String) : String :=
  if severity = "critical" then
    "EVITAR COMBINAÇÃO - Risco de reação grave. Consulte médico IMEDIATAMENTE."
  else if severity = "high" then
    "Usar com EXTREMA CAUTELA - Monitoramento médico rigoroso necessário."
  else if severity = "medium" then
    "Usar com cautela - Monitorar sinais e sintomas. Informar médico."
  else if severity = "low" then
    "Risco mínimo - Manter acompanhamento médico de rotina."
  else "Consultar profissional de saúde."

/-- Embedding of the risk-escalation step of
`ClinicalRulesAgent.analyze_contraindications` (step 6): adjust the base
risk from the patient risk-factor counts. -/
def adjust_risk_level (risk_level : String) (critical_risk_count high_risk_count : Nat) : String :=
  if 2 ≤ critical_risk_count then "critical"
  else if 1 ≤ critical_risk_count ∧ risk_level ∈ ["low"] then "high"
  else if 2 ≤ high_risk_count ∧ risk_level = "low" then "high"
  else if 1 ≤ high_risk_count ∧ risk_level = "low" then "medium"
  else risk_level

/-- The ordinal scale low < medium < high < critical used by the spec to
compare risk levels. -/
def severity_rank (s : String) : Nat :=
  if s = "low" then 0
  else if s = "medium" then 1
  else if s = "high" then 2
  else if s = "critical" then 3
  else 0

/-- An adverse-reaction entry of the knowledge base in
`ClinicalRulesAgent._get_common_adverse_reactions`. -/
structure Reaction where
  reaction : String
  description : String
  frequency : String
  severity : String
  risk_factors : List String
deriving DecidableEq

/-- Adverse reactions of the NSAID class (`_get_common_adverse_reactions`). -/
def aine_reactions : List Reaction :=
  [{ reaction := "Irritação gastrointestinal",
     description := "Dor epigástrica, náuseas, azia, possível úlcera péptica",
     frequency := "Muito comum (>10%)",
     severity := "Moderada a grave",
     risk_factors := ["uso prolongado", "história de úlcera",
       "uso concomitante de anticoagulantes"] },
   { reaction := "Disfunção renal",
     description := "Redução da filtração glomerular, retenção de líquidos",
     frequency := "Comum (1-10%)",
     severity := "Moderada",
     risk_factors := ["idosos", "desidratação", "insuficiência renal prévia"] },
   { reaction := "Aumento de pressão arterial",
     description := "Elevação da pressão arterial, edema periférico",
     frequency := "Comum (1-10%)",
     severity := "Moderada",
     risk_factors := ["hipertensão", "insuficiência cardíaca"] }]

/-- Adverse reactions of the anticoagulant class. -/
def warfarin_reactions : List Reaction :=
  [{ reaction := "Sangramento",
     description := "Hemorragias (nasal, gengival, hematomas, sangue na urina/fezes)",
     frequency := "Comum (1-10%)",
     severity := "Grave",
     risk_factors := ["INR elevado", "trauma", "cirurgia recente", "idade >65 anos"] },
   { reaction := "Necrose cutânea",
     description := "Necrose de pele e tecido subcutâneo (raro)",
     frequency := "Raro (<0.1%)",
     severity := "Grave",
     risk_factors := ["deficiência de proteína C/S", "doses altas iniciais"] }]

/-- Adverse reactions of the metformin class. -/
def metformin_reactions : List Reaction :=
  [{ reaction := "Distúrbios gastrointestinais",
     description := "Diarreia, náuseas, vômitos, flatulência, gosto metálico",
     frequency := "Muito comum (>10%)",
     severity := "Leve a moderada",
     risk_factors := ["início de tratamento", "doses altas"] },
   { reaction := "Acidose lática",
     description := "Acúmulo de ácido lático (EMERGÊNCIA MÉDICA)",
     frequency := "Muito raro (<0.01%)",
     severity := "Crítica",
     risk_factors := ["insuficiência renal", "insuficiência hepática", "desidratação", "sepse"] },
   { reaction := "Deficiência de vitamina B12",
     description := "Redução da absorção de B12 (uso prolongado)",
     frequency := "Comum (1-10%)",
     severity := "Leve",
     risk_factors := ["uso prolongado >4 anos", "não suplementação"] }]

/-- Adverse reactions of the statin class. -/
def statin_reactions : List Reaction :=
  [{ reaction := "Mialgia e dor muscular",
     description := "Dor muscular, fraqueza, cãibras",
     frequency := "Comum (1-10%)",
     severity := "Leve a moderada",
     risk_factors := ["doses altas", "interações medicamentosas", "idosos"] },
   { reaction := "Rabdomiólise",
     description := "Destruição muscular grave com liberação de mioglobina",
     frequency := "Raro (<0.1%)",
     severity := "Crítica",
     risk_factors := ["doses altas", "interação com fibratos", "hipotireoidismo"] },
   { reaction := "Elevação de enzimas hepáticas",
     description := "Aumento de ALT/AST",
     frequency := "Comum (1-10%)",
     severity := "Leve a moderada",
     risk_factors := ["doença hepática prévia", "uso concomitante de álcool"] }]

/-- Adverse reactions of the SSRI class. -/
def ssri_reactions : List Reaction :=
  [{ reaction := "Síndrome serotoninérgica",
     description := "Agitação, confusão, taquicardia, hipertermia, tremores",
     frequency := "Raro (<0.1%)",
     severity := "Grave",
     risk_factors := ["uso concomitante de outros serotoninérgicos", "tramadol", "IMAOs"] },
   { reaction := "Disfunção sexual",
     description := "Diminuição da libido, disfunção erétil, anorgasmia",
     frequency := "Muito comum (>10%)",
     severity := "Moderada",
     risk_factors := ["doses elevadas", "uso prolongado"] },
   { reaction := "Insônia ou sonolência",
     description := "Alterações no padrão de sono",
     frequency := "Comum (1-10%)",
     severity := "Leve",
     risk_factors := ["início de tratamento"] }]

/-- Adverse reactions of the benzodiazepine class. -/
def benzo_reactions : List Reaction :=
  [{ reaction := "Sedação e sonolência",
     description := "Sonolência diurna, diminuição de reflexos, fadiga",
     frequency := "Muito comum (>10%)",
     severity := "Moderada",
     risk_factors := ["idosos", "doses altas", "uso de álcool"] },
   { reaction := "Dependência e abstinência",
     description := "Dependência física e psicológica, síndrome de abstinência",
     frequency := "Comum (1-10%)",
     severity := "Grave",
     risk_factors := ["uso prolongado >4 semanas", "doses altas", "histórico de dependência"] },
   { reaction := "Prejuízo cognitivo",
     description := "Dificuldade de concentração, amnésia anterógrada",
     frequency := "Comum (1-10%)",
     severity := "Moderada",
     risk_factors := ["idosos", "doses altas"] }]

/-- Adverse reactions of the paracetamol class. -/
def paracetamol_reactions : List Reaction :=
  [{ reaction := "Hepatotoxicidade",
     description := "Lesão hepática (doses >4g/dia ou intoxicação)",
     frequency := "Raro em doses terapêuticas",
     severity := "Crítica (em overdose)",
     risk_factors := ["doses >4g/dia", "uso de álcool", "doença hepática", "jejum"] },
   { reaction := "Reações alérgicas",
     description := "Rash cutâneo, urticária (raro)",
     frequency := "Raro (<0.1%)",
     severity := "Leve a moderada",
     risk_factors := ["histórico de alergias"] }]

/-- Adverse reactions of the quinolone antibiotic class. -/
def quinolone_reactions : List Reaction :=
  [{ reaction := "Tendinite e ruptura de tendão",
     description := "Inflamação e possível ruptura do tendão de Aquiles",
     frequency := "Incomum (0.1-1%)",
     severity := "Grave",
     risk_factors := ["idade >60 anos", "corticoides", "atividade física intensa"] },
   { reaction := "Fotossensibilidade",
     description := "Aumento da sensibilidade à luz solar",
     frequency := "Comum (1-10%)",
     severity := "Leve a moderada",
     risk_factors := ["exposição solar"] },
   { reaction := "Prolongamento do intervalo QT",
     description := "Risco de arritmias cardíacas",
     frequency := "Raro (<0.1%)",
     severity := "Grave",
     risk_factors := ["cardiopatia", "uso de outros QT prolongadores",
       "distúrbios eletrolíticos"] }]

/-- The generic fallback adverse-reaction entry for unmapped drugs. -/
def generic_reaction : Reaction :=
  { reaction := "Reações adversas gerais",
    description := "Consulte a bula para lista completa de reações adversas específicas",
    frequency := "Variável",
    severity := "Variável",
    risk_factors := ["sensibilidade individual", "interações medicamentosas"] }

/-- Embedding of `ClinicalRulesAgent._get_common_adverse_reactions`: the
lower-cased medication name is matched against the drug-class substring
groups in source order, first match wins, with a generic fallback. -/
def get_common_adverse_reactions (medication : String) : List Reaction :=
  let med_lower := py_lower medication
  if ["ibuprofen", "ibuprofeno", "aspirin", "aspirina", "diclofenac", "naproxen"].any
      (fun med => py_in med med_lower) then aine_reactions
  else if ["warfarin", "varfarina", "marevan"].any (fun med => py_in med med_lower) then
    warfarin_reactions
  else if ["metformin", "metformina", "glifage"].any (fun med => py_in med med_lower) then
    metformin_reactions
  else if ["atorvastatin", "atorvastatina", "simvastatin", "simvastatina", "rosuva"].any
      (fun med => py_in med med_lower) then statin_reactions
  else if ["fluoxetine", "fluoxetina", "sertraline", "sertralina", "prozac", "zoloft"].any
      (fun med => py_in med med_lower) then ssri_reactions
  else if ["diazepam", "clonazepam", "alprazolam", "rivotril", "valium"].any
      (fun med => py_in med med_lower) then benzo_reactions
  else if ["paracetamol", "acetaminophen", "tylenol"].any (fun med => py_in med med_lower) then
    paracetamol_reactions
  else if ["levofloxacin", "ciprofloxacin", "norfloxacin"].any
      (fun med => py_in med med_lower) then quinolone_reactions
  else [generic_reaction]

/-- The drug-class substring groups of `_get_common_adverse_reactions` as an
ordered table, pairing each substring group with its reaction profile. -/
def adverse_reaction_groups : List (List String × List Reaction) :=
  [(["ibuprofen", "ibuprofeno", "aspirin", "aspirina", "diclofenac", "naproxen"],
      aine_reactions),
   (["warfarin", "varfarina", "marevan"], warfarin_reactions),
   (["metformin", "metformina", "glifage"], metformin_reactions),
   (["atorvastatin", "atorvastatina", "simvastatin", "simvastatina", "rosuva"],
      statin_reactions),
   (["fluoxetine", "fluoxetina", "sertraline", "sertralina", "prozac", "zoloft"],
      ssri_reactions),
   (["diazepam", "clonazepam", "alprazolam", "rivotril", "valium"], benzo_reactions),
   (["paracetamol", "acetaminophen", "tylenol"], paracetamol_reactions),
   (["levofloxacin", "ciprofloxacin", "norfloxacin"], quinolone_reactions)]

/-- Ordered first-match-wins selection over `adverse_reaction_groups`,
applied to an already lower-cased name. -/
def select_reactions (med_lower : String) : List Reaction :=
  match adverse_reaction_groups.find? (fun entry => entry.1.any (fun med => py_in med med_lower)) with
  | some entry => entry.2
  | none => [generic_reaction]

/-- Selection as the specification words it: the drug-class groups are
matched against the NORMALIZED (synonym-mapped) drug name rather than the
merely lower-cased one. -/
def spec_selected_reactions (medication : String) : List Reaction :=
  select_reactions (normalize_drug_name medication)

/-- Embedding of the confidence-score computation of
`ClinicalRulesAgent.analyze_contraindications` (step 8): 0.85 when any
interaction or contraindication was found, else 0.65. -/
def confidence_score (interactions_found : List InteractionFinding)
    (contraindications_found : List ContraFinding) : ℚ :=
  if interactions_found ≠ [] ∨ contraindications_found ≠ [] then 0.85 else 0.65

theorem any_sev_true {α : Type} (sev : α → String) (s : String) (l : List α)
    (h : ∃ f ∈ l, sev f = s) : l.any (fun f => sev f == s) = true := by
  obtain ⟨f, hf, hs⟩ := h
  exact List.any_eq_true.mpr ⟨f, hf, by simp [hs]⟩

theorem any_sev_false {α : Type} (sev : α → String) (s : String) (l : List α)
    (h : ∀ f ∈ l, sev f ≠ s) : ¬(l.any (fun f => sev f == s) = true) := by
  simp only [List.any_eq_true, not_exists]
  intro f
  simp only [not_and, beq_iff_eq]
  exact h f

theorem countP_sev_zero {α : Type} (sev : α → String) (s : String) (l : List α)
    (h : ∀ f ∈ l, sev f ≠ s) : l.countP (fun f => sev f == s) = 0 := by
  refine List.countP_eq_zero.mpr ?_
  intro f hf
  simpa using h f hf

theorem countP_sev_pos {α : Type} (sev : α → String) (s : String) (l : List α)
    (h : ∃ f ∈ l, sev f = s) : 0 < l.countP (fun f => sev f == s) := by
  obtain ⟨f, hf, hs⟩ := h
  exact List.countP_pos_iff.mpr ⟨f, hf, by simp [hs]⟩

/-- Claim C1: `calculate_overall_risk` returns the first matching rule of
the ladder, top to bottom: any critical contraindication or interaction
gives critical; else at least one high interaction or contraindication
gives high; else at least one medium gives medium; else low. -/
theorem calculate_overall_risk_ladder (ints : List InteractionFinding)
    (cs : List ContraFinding) :
    (((∃ f ∈ cs, f.severity = "critical") ∨ (∃ f ∈ ints, f.severity = "critical")) →
      calculate_overall_risk ints cs InteractionFinding.severity ContraFinding.severity
        = "critical") ∧
    ((∀ f ∈ cs, f.severity ≠ "critical") → (∀ f ∈ ints, f.severity ≠ "critical") →
      ((∃ f ∈ ints, f.severity = "high") ∨ (∃ f ∈ cs, f.severity = "high")) →
      calculate_overall_risk ints cs InteractionFinding.severity ContraFinding.severity
        = "high") ∧
    ((∀ f ∈ cs, f.severity ≠ "critical") → (∀ f ∈ ints, f.severity ≠ "critical") →
      (∀ f ∈ ints, f.severity ≠ "high") → (∀ f ∈ cs, f.severity ≠ "high") →
      ((∃ f ∈ ints, f.severity = "medium") ∨ (∃ f ∈ cs, f.severity = "medium")) →
      calculate_overall_risk ints cs InteractionFinding.severity ContraFinding.severity
        = "medium") ∧
    ((∀ f ∈ cs, f.severity ≠ "critical") → (∀ f ∈ ints, f.severity ≠ "critical") →
      (∀ f ∈ ints, f.severity ≠ "high") → (∀ f ∈ cs, f.severity ≠ "high") →
      (∀ f ∈ ints, f.severity ≠ "medium") → (∀ f ∈ cs, f.severity ≠ "medium") →
      calculate_overall_risk ints cs InteractionFinding.severity ContraFinding.severity
        = "low") := by
  unfold calculate_overall_risk
  simp only [← List.countP_eq_length_filter]
  refine ⟨?_, ?_, ?_, ?_⟩
  · rintro (h | h)
    · rw [if_pos (any_sev_true _ _ _ h)]
    · by_cases h1 : cs.any (fun c => c.severity == "critical") = true
      · rw [if_pos h1]
      · rw [if_neg h1, if_pos (any_sev_true _ _ _ h)]
  · intro hnc hni hex
    rw [if_neg (any_sev_false _ _ _ hnc), if_neg (any_sev_false _ _ _ hni), if_pos]
    rcases hex with h | h
    · have := countP_sev_pos _ _ _ h
      omega
    · have := countP_sev_pos _ _ _ h
      omega
  · intro hnc hni hih hch hex
    rw [if_neg (any_sev_false _ _ _ hnc), if_neg (any_sev_false _ _ _ hni), if_neg, if_pos]
    · rcases hex with h | h
      · have := countP_sev_pos _ _ _ h
        omega
      · have := countP_sev_pos _ _ _ h
        omega
    · have h1 := countP_sev_zero _ _ _ hih
      have h2 := countP_sev_zero _ _ _ hch
      omega
  · intro hnc hni hih hch him hcm
    rw [if_neg (any_sev_false _ _ _ hnc), if_neg (any_sev_false _ _ _ hni), if_neg, if_neg]
    · have h1 := countP_sev_zero _ _ _ him
      have h2 := countP_sev_zero _ _ _ hcm
      omega
    · have h1 := countP_sev_zero _ _ _ hih
      have h2 := countP_sev_zero _ _ _ hch
      omega

/-- Witness for claim C1: with no findings at all, the ladder falls through
to low. -/
theorem calculate_overall_risk_ladder_witness :
    calculate_overall_risk ([] : List InteractionFinding) ([] : List ContraFinding)
      InteractionFinding.severity ContraFinding.severity = "low" :=
  (calculate_overall_risk_ladder [] []).2.2.2
    (by simp) (by simp) (by simp) (by simp) (by simp) (by simp)

/-- Claim C2: the patient-risk-factor escalation applies exactly the rules
of the source, with their precedence: two critical risk factors force
critical; one critical risk factor on a low base forces high; two high risk
factors on a low base force high; one high risk factor on a low base forces
medium; otherwise the base risk is returned unchanged. -/
theorem adjust_risk_level_rules (base : String) (cc hc : Nat) :
    (2 ≤ cc → adjust_risk_level base cc hc = "critical") ∧
    (cc = 1 → base = "low" → adjust_risk_level base cc hc = "high") ∧
    (cc = 0 → base = "low" → 2 ≤ hc → adjust_risk_level base cc hc = "high") ∧
    (cc = 0 → base = "low" → hc = 1 → adjust_risk_level base cc hc = "medium") ∧
    (cc ≤ 1 → (base = "low" → cc = 0 ∧ hc = 0) → adjust_risk_level base cc hc = base) := by
  unfold adjust_risk_level
  refine ⟨?_, ?_, ?_, ?_, ?_⟩
  · intro h
    rw [if_pos h]
  · rintro h rfl
    rw [if_neg (by omega), if_pos ⟨by omega, by simp⟩]
  · rintro h rfl hh
    rw [if_neg (by omega), if_neg (by rintro ⟨h1, -⟩; omega), if_pos ⟨hh, rfl⟩]
  · rintro h rfl hh
    rw [if_neg (by omega), if_neg (by rintro ⟨h1, -⟩; omega),
      if_neg (by rintro ⟨h1, -⟩; omega), if_pos ⟨by omega, rfl⟩]
  · intro h1 h2
    by_cases hb : base = "low"
    · obtain ⟨hc0, hh0⟩ := h2 hb
      rw [if_neg (by omega), if_neg (by rintro ⟨h, -⟩; omega),
        if_neg (by rintro ⟨h, -⟩; omega), if_neg (by rintro ⟨h, -⟩; omega)]
    · rw [if_neg (by omega), if_neg (by rintro ⟨-, h⟩; simp at h; exact hb h),
        if_neg (by rintro ⟨-, h⟩; exact hb h), if_neg (by rintro ⟨-, h⟩; exact hb h)]

/-- Witness for claim C2: two critical risk factors force a critical final
risk over a low base. -/
theorem adjust_risk_level_rules_witness : adjust_risk_level "low" 2 0 = "critical" :=
  (adjust_risk_level_rules "low" 2 0).1 (by omega)

/-- Claim C3: for every base risk level and every pair of risk-factor
counts, the escalated risk is at least the base risk on the ordinal scale
low < medium < high < critical. -/
theorem adjust_risk_level_monotone (base : String) (cc hc : Nat)
    (h : base = "low" ∨ base = "medium" ∨ base = "high" ∨ base = "critical") :
    severity_rank base ≤ severity_rank (adjust_risk_level base cc hc) := by
  unfold adjust_risk_level
  split_ifs with h1 h2 h3 h4
  · rcases h with rfl | rfl | rfl | rfl <;> decide
  · have hb : base = "low" := by simpa using h2.2
    subst hb
    decide
  · obtain ⟨-, hb⟩ := h3
    subst hb
    decide
  · obtain ⟨-, hb⟩ := h4
    subst hb
    decide
  · exact Nat.le_refl _

/-- Witness for claim C3, at a low base with no risk factors. -/
theorem adjust_risk_level_monotone_witness :
    severity_rank "low" ≤ severity_rank (adjust_risk_level "low" 0 0) :=
  adjust_risk_level_monotone "low" 0 0 (Or.inl rfl)

/-- Counterexample to claim C6: with allergies `["Penicillin"]` and drug
name `"Amoxicillin"` the normalized names are `"penicillin"` and
`"amoxicillin"`, neither is a substring of the other, and the
contraindication analyzer returns no finding at all. -/
theorem allergy_penicillin_amoxicillin_no_finding :
    normalize_drug_name "Penicillin" = "penicillin" ∧
    normalize_drug_name "Amoxicillin" = "amoxicillin" ∧
    analyze_contraindications "Amoxicillin" [] ["Penicillin"] = [] := by decide

/-- Claim C6 as amended: with allergies `["Penicillin"]` and a drug name
the normalized allergy really is a substring of (here `"Penicillin V"`),
the analyzer output includes a critical-severity finding. -/
theorem allergy_substring_match_critical :
    ∃ f ∈ analyze_contraindications "Penicillin V" [] ["Penicillin"],
      f.severity = "critical" := by decide

/-- Claim C7: when the dataset is missing or unreadable at load time the
index initializes empty and every subsequent lookup, for every drug name
and every list of other drugs, returns no findings. -/
theorem find_interactions_after_failed_load (drug_name : String) (others : List String) :
    load_interactions_result none = empty_index ∧
    find_interactions (load_interactions_result none) drug_name others = [] := by
  refine ⟨rfl, ?_⟩
  unfold find_interactions load_interactions_result empty_index
  rw [List.filterMap_eq_nil_iff]
  intro a _
  split <;> rfl

/-- Claim C10: every finding of the contraindication analyzer has severity
critical (allergy findings) or high (condition findings), so the medium
rule of the overall-risk ladder can only be triggered by an interaction
finding. -/
theorem contraindication_severities_critical_or_high (dn : String)
    (conds alls : List String) (ints : List InteractionFinding) :
    (∀ f ∈ analyze_contraindications dn conds alls,
      f.severity = "critical" ∨ f.severity = "high") ∧
    (calculate_overall_risk ints (analyze_contraindications dn conds alls)
        InteractionFinding.severity ContraFinding.severity = "medium" →
      ∃ i ∈ ints, i.severity = "medium") := by
  have hmem : ∀ f ∈ analyze_contraindications dn conds alls,
      f.severity = "critical" ∨ f.severity = "high" := by
    intro f hf
    simp only [analyze_contraindications, get_condition_contraindications, List.mem_append,
      List.mem_filterMap, List.mem_flatMap] at hf
    rcases hf with ⟨a, -, ha⟩ | ⟨c, -, e, -, he⟩
    · split at ha
      · cases ha
        exact Or.inl rfl
      · cases ha
    · split at he
      · rw [List.mem_filterMap] at he
        obtain ⟨d, -, hd⟩ := he
        split at hd
        · cases hd
          exact Or.inr rfl
        · cases hd
      · cases he
  refine ⟨hmem, ?_⟩
  intro hr
  have hno : ∀ f ∈ analyze_contraindications dn conds alls, f.severity ≠ "medium" := by
    intro f hf
    rcases hmem f hf with h | h <;> simp [h]
  unfold calculate_overall_risk at hr
  simp only [← List.countP_eq_length_filter] at hr
  split_ifs at hr
  · exact absurd hr (by decide)
  · exact absurd hr (by decide)
  · exact absurd hr (by decide)
  · rename_i h1 h2 h3 h4
    have hz := countP_sev_zero ContraFinding.severity "medium"
      (analyze_contraindications dn conds alls) hno
    have : 0 < ints.countP (fun i => i.severity == "medium") := by omega
    obtain ⟨i, hi, hs⟩ := List.countP_pos_iff.mp this
    exact ⟨i, hi, by simpa using hs⟩
  · exact absurd hr (by decide)

/-- Witness for claim C10: one medium interaction and no contraindication
input gives overall risk medium, and the medium finding is an
interaction. -/
theorem contraindication_severities_critical_or_high_witness :
    ∃ i ∈ [InteractionFinding.mk "d" "e" "medium" "m" "r"], i.severity = "medium" :=
  (contraindication_severities_critical_or_high "x" [] []
    [InteractionFinding.mk "d" "e" "medium" "m" "r"]).2 (by decide)

/-- Every record held by an index is classified from its own description. -/
def classified (m : Index) : Prop :=
  ∀ k v, m k = some v → v.severity = classify_severity v.description ∧
    v.category = classify_category v.description

theorem insert_row_classified (m : Index) (r : CsvRow) (hm : classified m) :
    classified (insert_row m r) := by
  intro k v h
  simp only [insert_row] at h
  split at h
  · cases h
    exact ⟨rfl, rfl⟩
  · split at h
    · cases h
      exact ⟨rfl, rfl⟩
    · exact hm k v h

theorem foldl_insert_classified (rows : List CsvRow) :
    ∀ m : Index, classified m → classified (rows.foldl insert_row m) := by
  induction rows with
  | nil => exact fun m hm => hm
  | cons r rest ih =>
    intro m hm
    exact ih (insert_row m r) (insert_row_classified m r hm)

theorem load_interactions_classified (rows : List CsvRow) :
    classified (load_interactions rows) := by
  refine foldl_insert_classified rows empty_index ?_
  intro k v h
  simp [empty_index] at h

theorem find_interactions_singleton (db : Index) (dn other : String)
    (hne : ¬(other = "" ∨ py_strip other = "")) :
    find_interactions db dn [other]
      = (db (mkKey (normalize_drug_name dn) (normalize_drug_name other))).toList := by
  simp only [find_interactions, List.filterMap, if_neg hne]
  cases db (mkKey (normalize_drug_name dn) (normalize_drug_name other)) <;> rfl

/-- Claim C5 as amended: if the index holds a record for the normalized
pair (warfarin, acetylsalicylic acid) whose description is
"May increase the risk of bleeding" (which contains the high keyword
"increase the risk" and no critical keyword — there is no bare "risk"
keyword in the classifier), then `find_interactions("Warfarin",
["Aspirin"])` returns exactly that one finding, its severity is high, its
category is Coagulação via the "bleeding" keyword, and the recommendation
derived from its severity mentions EXTREMA CAUTELA. -/
theorem warfarin_aspirin_high_scenario (rows : List CsvRow) (rec : InteractionData)
    (hrec : load_interactions rows (mkKey "warfarin" "acetylsalicylic acid") = some rec)
    (hdesc : rec.description = "May increase the risk of bleeding") :
    find_interactions (load_interactions rows) "Warfarin" ["Aspirin"] = [rec] ∧
    rec.severity = "high" ∧
    rec.category = "Coagulação" ∧
    py_in "EXTREMA CAUTELA" (get_interaction_recommendation rec.severity) = true := by
  have hcl := load_interactions_classified rows _ _ hrec
  have hsev : rec.severity = "high" := by
    rw [hcl.1, hdesc]
    decide
  have hcat : rec.category = "Coagulação" := by
    rw [hcl.2, hdesc]
    decide
  refine ⟨?_, hsev, hcat, ?_⟩
  · rw [find_interactions_singleton _ _ _ (by decide)]
    rw [show normalize_drug_name "Warfarin" = "warfarin" from by decide,
      show normalize_drug_name "Aspirin" = "acetylsalicylic acid" from by decide, hrec]
    rfl
  · rw [hsev]
    decide

/-- A one-row dataset whose description contains a high keyword. -/
def may_increase_rows : List CsvRow :=
  [{ drug1 := "Warfarin", drug2 := "Aspirin",
     description := "May increase the risk of bleeding" }]

/-- Witness for claim C5 on the concrete one-row dataset. -/
theorem warfarin_aspirin_high_scenario_witness :
    find_interactions (load_interactions may_increase_rows) "Warfarin" ["Aspirin"]
      = [row_data (CsvRow.mk "Warfarin" "Aspirin" "May increase the risk of bleeding")] ∧
    (row_data (CsvRow.mk "Warfarin" "Aspirin" "May increase the risk of bleeding")).severity
      = "high" ∧
    (row_data (CsvRow.mk "Warfarin" "Aspirin" "May increase the risk of bleeding")).category
      = "Coagulação" ∧
    py_in "EXTREMA CAUTELA" (get_interaction_recommendation
      (row_data (CsvRow.mk "Warfarin" "Aspirin" "May increase the risk of bleeding")).severity)
      = true :=
  warfarin_aspirin_high_scenario may_increase_rows _ (by decide) (by decide)

/-- A one-row dataset whose description is exactly the phrase named by
claim C5. -/
def increased_risk_rows : List CsvRow :=
  [{ drug1 := "Warfarin", drug2 := "Aspirin",
     description := "increased risk of bleeding" }]

/-- Counterexample to claim C5: a stored (warfarin, aspirin) record whose
description contains "increased risk of bleeding" is returned by the
lookup, but its severity is low, not high — none of the severity keyword
lists contains a bare "risk" keyword, and "increase the risk" does not
occur in "increased risk of bleeding". -/
theorem warfarin_aspirin_increased_risk_low :
    py_in "increased risk of bleeding" "increased risk of bleeding" = true ∧
    (find_interactions (load_interactions increased_risk_rows) "Warfarin" ["Aspirin"]).map
      InteractionData.severity = ["low"] := by decide

/-- Claim C8 as amended: the adverse-reaction profile is selected by
matching the LOWER-CASED drug name (not the synonym-normalized one)
against the ordered drug-class substring groups, first match winning; a
drug matching no group yields exactly the generic fallback entry, and with
no interactions and no contraindications found the confidence score is
0.65. -/
theorem adverse_reactions_first_match (medication : String) :
    get_common_adverse_reactions medication = select_reactions (py_lower medication) ∧
    ((adverse_reaction_groups.all
        fun entry => !entry.1.any fun med => py_in med (py_lower medication)) = true →
      get_common_adverse_reactions medication = [generic_reaction] ∧
      confidence_score [] [] = 0.65) := by
  have hsel : get_common_adverse_reactions medication
      = select_reactions (py_lower medication) := by
    simp only [get_common_adverse_reactions, select_reactions, adverse_reaction_groups]
    split_ifs with h1 h2 h3 h4 h5 h6 h7 h8
    · rw [List.find?_cons_of_pos _ (by simpa using h1)]
    · rw [List.find?_cons_of_neg _ (by simpa using h1),
        List.find?_cons_of_pos _ (by simpa using h2)]
    · rw [List.find?_cons_of_neg _ (by simpa using h1),
        List.find?_cons_of_neg _ (by simpa using h2),
        List.find?_cons_of_pos _ (by simpa using h3)]
    · rw [List.find?_cons_of_neg _ (by simpa using h1),
        List.find?_cons_of_neg _ (by simpa using h2),
        List.find?_cons_of_neg _ (by simpa using h3),
        List.find?_cons_of_pos _ (by simpa using h4)]
    · rw [List.find?_cons_of_neg _ (by simpa using h1),
        List.find?_cons_of_neg _ (by simpa using h2),
        List.find?_cons_of_neg _ (by simpa using h3),
        List.find?_cons_of_neg _ (by simpa using h4),
        List.find?_cons_of_pos _ (by simpa using h5)]
    · rw [List.find?_cons_of_neg _ (by simpa using h1),
        List.find?_cons_of_neg _ (by simpa using h2),
        List.find?_cons_of_neg _ (by simpa using h3),
        List.find?_cons_of_neg _ (by simpa using h4),
        List.find?_cons_of_neg _ (by simpa using h5),
        List.find?_cons_of_pos _ (by simpa using h6)]
    · rw [List.find?_cons_of_neg _ (by simpa using h1),
        List.find?_cons_of_neg _ (by simpa using h2),
        List.find?_cons_of_neg _ (by simpa using h3),
        List.find?_cons_of_neg _ (by simpa using h4),
        List.find?_cons_of_neg _ (by simpa using h5),
        List.find?_cons_of_neg _ (by simpa using h6),
        List.find?_cons_of_pos _ (by simpa using h7)]
    · rw [List.find?_cons_of_neg _ (by simpa using h1),
        List.find?_cons_of_neg _ (by simpa using h2),
        List.find?_cons_of_neg _ (by simpa using h3),
        List.find?_cons_of_neg _ (by simpa using h4),
        List.find?_cons_of_neg _ (by simpa using h5),
        List.find?_cons_of_neg _ (by simpa using h6),
        List.find?_cons_of_neg _ (by simpa using h7),
        List.find?_cons_of_pos _ (by simpa using h8)]
    · rw [List.find?_cons_of_neg _ (by simpa using h1),
        List.find?_cons_of_neg _ (by simpa using h2),
        List.find?_cons_of_neg _ (by simpa using h3),
        List.find?_cons_of_neg _ (by simpa using h4),
        List.find?_cons_of_neg _ (by simpa using h5),
        List.find?_cons_of_neg _ (by simpa using h6),
        List.find?_cons_of_neg _ (by simpa using h7),
        List.find?_cons_of_neg _ (by simpa using h8)]
      rfl
  refine ⟨hsel, ?_⟩
  intro hall
  rw [List.all_eq_true] at hall
  constructor
  · rw [hsel]
    unfold select_reactions
    rw [List.find?_eq_none.mpr]
    intro entry hentry
    have := hall entry hentry
    simpa using this
  · unfold confidence_score
    rw [if_neg (by simp)]

/-- Counterexample to claim C8: the normalized name of "Coumadin" is
"warfarin", so the claim's selection-by-normalized-name puts it in the
anticoagulant class, but the code matches only the lower-cased raw name
and returns the generic fallback profile. -/
theorem coumadin_reactions_fallback :
    normalize_drug_name "Coumadin" = "warfarin" ∧
    spec_selected_reactions "Coumadin" = warfarin_reactions ∧
    get_common_adverse_reactions "Coumadin" = [generic_reaction] ∧
    warfarin_reactions ≠ [generic_reaction] := by decide

/-- Witness for claim C8: "dipirona" matches no drug-class group, gets the
generic fallback, and the no-findings confidence is 0.65. -/
theorem adverse_reactions_first_match_witness :
    get_common_adverse_reactions "dipirona" = select_reactions (py_lower "dipirona") ∧
    (get_common_adverse_reactions "dipirona" = [generic_reaction] ∧
      confidence_score [] [] = 0.65) :=
  ⟨(adverse_reactions_first_match "dipirona").1,
   (adverse_reactions_first_match "dipirona").2 (by decide)⟩

theorem lowerChar_eq (c : Char) :
    lowerChar c = match asciiCase.find? (fun p => p.1 == c) with
      | some p => p.2
      | none => c := rfl

theorem lowerChar_lowerChar (c : Char) : lowerChar (lowerChar c) = lowerChar c := by
  cases hf : asciiCase.find? (fun p => p.1 == c) with
  | none =>
    have h1 : lowerChar c = c := by rw [lowerChar_eq, hf]
    rw [h1]
    exact h1
  | some p =>
    have h1 : lowerChar c = p.2 := by rw [lowerChar_eq, hf]
    have hmem := List.mem_of_find?_eq_some hf
    have hnone : ∀ q ∈ asciiCase, asciiCase.find? (fun r => r.1 == q.2) = none := by decide
    rw [h1, lowerChar_eq, hnone p hmem]

theorem isSpaceChar_lowerChar (c : Char) : isSpaceChar (lowerChar c) = isSpaceChar c := by
  cases hf : asciiCase.find? (fun p => p.1 == c) with
  | none =>
    have h1 : lowerChar c = c := by rw [lowerChar_eq, hf]
    rw [h1]
  | some p =>
    have h1 : lowerChar c = p.2 := by rw [lowerChar_eq, hf]
    have hmem := List.mem_of_find?_eq_some hf
    have hcp : p.1 = c := by
      have := List.find?_some hf
      simpa using this
    have hfacts : ∀ q ∈ asciiCase, isSpaceChar q.1 = false ∧ isSpaceChar q.2 = false := by decide
    rw [h1, (hfacts p hmem).2, ← hcp, (hfacts p hmem).1]

theorem py_lower_py_lower (s : String) : py_lower (py_lower s) = py_lower s := by
  unfold py_lower
  refine congrArg String.mk ?_
  rw [List.map_map]
  exact List.map_congr_left (fun a _ => lowerChar_lowerChar a)

theorem dropWhile_of_rdropWhile_dropWhile (l : List Char) :
    List.dropWhile isSpaceChar (List.rdropWhile isSpaceChar (List.dropWhile isSpaceChar l))
      = List.rdropWhile isSpaceChar (List.dropWhile isSpaceChar l) := by
  cases hs : List.rdropWhile isSpaceChar (List.dropWhile isSpaceChar l) with
  | nil => rfl
  | cons x xs =>
    have hpre : List.IsPrefix (List.rdropWhile isSpaceChar (List.dropWhile isSpaceChar l))
        (List.dropWhile isSpaceChar l) := List.rdropWhile_prefix _ _
    rw [hs] at hpre
    obtain ⟨t, ht⟩ := hpre
    have ht' : List.dropWhile isSpaceChar l = x :: (xs ++ t) := by
      rw [← ht]
      rfl
    have hlen : 0 < (List.dropWhile isSpaceChar l).length := by
      rw [ht']
      simp
    have hnp := List.dropWhile_get_zero_not isSpaceChar l hlen
    have hx : (List.dropWhile isSpaceChar l).get ⟨0, hlen⟩ = x := by
      simp [ht']
    rw [hx] at hnp
    rw [List.dropWhile_cons, if_neg (by simpa using hnp)]

theorem py_strip_py_strip (s : String) : py_strip (py_strip s) = py_strip s := by
  unfold py_strip
  refine congrArg String.mk ?_
  rw [dropWhile_of_rdropWhile_dropWhile, List.rdropWhile_idempotent]

theorem py_strip_py_lower (s : String) : py_lower (py_strip s) = py_strip (py_lower s) := by
  unfold py_lower py_strip
  refine congrArg String.mk ?_
  have hcomp : (isSpaceChar ∘ lowerChar) = isSpaceChar := by
    funext c
    exact isSpaceChar_lowerChar c
  have hdrop : ∀ m : List Char, List.dropWhile isSpaceChar (m.map lowerChar)
      = (List.dropWhile isSpaceChar m).map lowerChar := by
    intro m
    rw [List.dropWhile_map, hcomp]
  have hrdrop : ∀ m : List Char, List.rdropWhile isSpaceChar (m.map lowerChar)
      = (List.rdropWhile isSpaceChar m).map lowerChar := by
    intro m
    unfold List.rdropWhile
    rw [← List.map_reverse, hdrop, List.map_reverse]
  rw [hdrop, hrdrop]

theorem normalized_input_fixed (name : String) :
    py_strip (py_lower (py_strip (py_lower name))) = py_strip (py_lower name) := by
  rw [py_strip_py_lower, py_lower_py_lower, py_strip_py_strip]

theorem synonym_values_fixed :
    ∀ pr ∈ drug_synonyms, normalize_drug_name pr.2 = pr.2 := by decide

/-- Claim C9: normalization is idempotent — lower-case and strip, then an
exact synonym-table lookup; every synonym-table value is itself a fixpoint
of normalization, and a missed lookup returns an already
lower-cased-and-stripped string that misses again. -/
theorem normalize_drug_name_idempotent (name : String) :
    normalize_drug_name (normalize_drug_name name) = normalize_drug_name name := by
  have hn : normalize_drug_name name =
      (match drug_synonyms.find? (fun p => p.1 == py_strip (py_lower name)) with
       | some p => p.2
       | none => py_strip (py_lower name)) := rfl
  cases hf : drug_synonyms.find? (fun p => p.1 == py_strip (py_lower name)) with
  | some p =>
    have h1 : normalize_drug_name name = p.2 := by rw [hn, hf]
    rw [h1]
    exact synonym_values_fixed p (List.mem_of_find?_eq_some hf)
  | none =>
    have h1 : normalize_drug_name name = py_strip (py_lower name) := by rw [hn, hf]
    rw [h1]
    show (match drug_synonyms.find?
        (fun p => p.1 == py_strip (py_lower (py_strip (py_lower name)))) with
      | some p => p.2
      | none => py_strip (py_lower (py_strip (py_lower name)))) = py_strip (py_lower name)
    rw [normalized_input_fixed, hf]

/-- A string containing no occurrence of the key separator character. -/
def pipe_free (s : String) : Bool :=
  s.data.all (fun c => !(c == '|'))

theorem pipe_free_not_mem {s : String} (h : pipe_free s = true) : '|' ∉ s.data := by
  intro hmem
  have := List.all_eq_true.mp h _ hmem
  simp at this

theorem sep_append_inj : ∀ {xs : List Char} {u : List Char} {ys : List Char} {v : List Char},
    '|' ∉ xs → '|' ∉ ys → xs ++ '|' :: u = ys ++ '|' :: v → xs = ys ∧ u = v := by
  intro xs
  induction xs with
  | nil =>
    intro u ys v _ hy h
    cases ys with
    | nil =>
      simp at h
      exact ⟨rfl, h⟩
    | cons y ys' =>
      simp at h
      exact absurd (h.1 ▸ List.mem_cons_self y ys') (fun hm => hy (h.1 ▸ hm))
  | cons x xs' ih =>
    intro u ys v hx hy h
    cases ys with
    | nil =>
      simp at h
      exact absurd (h.1 ▸ List.mem_cons_self x xs') (fun hm => hx (h.1 ▸ hm))
    | cons y ys' =>
      simp only [List.cons_append, List.cons.injEq] at h
      have hx' : '|' ∉ xs' := fun hm => hx (List.mem_cons_of_mem _ hm)
      have hy' : '|' ∉ ys' := fun hm => hy (List.mem_cons_of_mem _ hm)
      obtain ⟨h1, h2⟩ := ih hx' hy' h.2
      exact ⟨by rw [h.1, h1], h2⟩

theorem mkKey_inj {a b c d : String} (ha : pipe_free a = true) (hc : pipe_free c = true)
    (h : mkKey a b = mkKey c d) : a = c ∧ b = d := by
  unfold mkKey at h
  obtain ⟨h1, h2⟩ := sep_append_inj (pipe_free_not_mem ha) (pipe_free_not_mem hc) h
  exact ⟨String.ext h1, String.ext h2⟩

/-- Symmetry invariant of the index: the two orderings of any pipe-free
key pair resolve to the same entry. -/
def index_sym (m : Index) : Prop :=
  ∀ x y : String, pipe_free x = true → pipe_free y = true →
    m (mkKey x y) = m (mkKey y x)

theorem insert_row_sym (m : Index) (r : CsvRow)
    (h1 : pipe_free (normalize_drug_name r.drug1) = true)
    (h2 : pipe_free (normalize_drug_name r.drug2) = true)
    (hm : index_sym m) : index_sym (insert_row m r) := by
  intro x y hx hy
  simp only [insert_row]
  by_cases e1 : mkKey x y = mkKey (normalize_drug_name r.drug2) (normalize_drug_name r.drug1)
  · rw [if_pos e1]
    obtain ⟨hxd, hyd⟩ := mkKey_inj hx h2 e1
    subst hxd
    subst hyd
    by_cases e2 : mkKey (normalize_drug_name r.drug1) (normalize_drug_name r.drug2)
        = mkKey (normalize_drug_name r.drug2) (normalize_drug_name r.drug1)
    · rw [if_pos e2]
    · rw [if_neg e2, if_pos rfl]
  · rw [if_neg e1]
    by_cases e2 : mkKey x y = mkKey (normalize_drug_name r.drug1) (normalize_drug_name r.drug2)
    · rw [if_pos e2]
      obtain ⟨hxd, hyd⟩ := mkKey_inj hx h1 e2
      subst hxd
      subst hyd
      rw [if_pos rfl]
    · rw [if_neg e2]
      by_cases e3 : mkKey y x = mkKey (normalize_drug_name r.drug2) (normalize_drug_name r.drug1)
      · obtain ⟨hyd, hxd⟩ := mkKey_inj hy h2 e3
        exact absurd (by rw [hyd, hxd]) e2
      · rw [if_neg e3]
        by_cases e4 : mkKey y x = mkKey (normalize_drug_name r.drug1) (normalize_drug_name r.drug2)
        · obtain ⟨hyd, hxd⟩ := mkKey_inj hy h1 e4
          exact absurd (by rw [hyd, hxd]) e1
        · rw [if_neg e4]
          exact hm x y hx hy

theorem foldl_insert_sym (rows : List CsvRow) :
    ∀ m : Index, index_sym m →
    (∀ q ∈ rows, pipe_free (normalize_drug_name q.drug1) = true ∧
      pipe_free (normalize_drug_name q.drug2) = true) →
    index_sym (rows.foldl insert_row m) := by
  induction rows with
  | nil => exact fun m hm _ => hm
  | cons r rest ih =>
    intro m hm hpf
    refine ih (insert_row m r) ?_ (fun q hq => hpf q (List.mem_cons_of_mem _ hq))
    exact insert_row_sym m r (hpf r (List.mem_cons_self _ _)).1
      (hpf r (List.mem_cons_self _ _)).2 hm

theorem insert_row_keeps_some (m : Index) (r : CsvRow) (k : List Char)
    (h : ∃ v, m k = some v) : ∃ v, insert_row m r k = some v := by
  simp only [insert_row]
  split
  · exact ⟨_, rfl⟩
  · split
    · exact ⟨_, rfl⟩
    · exact h

theorem foldl_insert_keeps_some (rows : List CsvRow) :
    ∀ (m : Index) (k : List Char), (∃ v, m k = some v) →
    ∃ v, (rows.foldl insert_row m) k = some v := by
  induction rows with
  | nil => exact fun m k h => h
  | cons r rest ih =>
    intro m k h
    exact ih (insert_row m r) k (insert_row_keeps_some m r k h)

theorem insert_row_self_key (m : Index) (r : CsvRow) :
    ∃ v, insert_row m r
      (mkKey (normalize_drug_name r.drug1) (normalize_drug_name r.drug2)) = some v := by
  simp only [insert_row]
  by_cases e : mkKey (normalize_drug_name r.drug1) (normalize_drug_name r.drug2)
      = mkKey (normalize_drug_name r.drug2) (normalize_drug_name r.drug1)
  · rw [if_pos e]
    exact ⟨_, rfl⟩
  · rw [if_neg e, if_pos trivial]
    exact ⟨_, rfl⟩

theorem load_mem_key_some (rows : List CsvRow) (r : CsvRow) (hr : r ∈ rows) :
    ∃ v, load_interactions rows
      (mkKey (normalize_drug_name r.drug1) (normalize_drug_name r.drug2)) = some v := by
  have main : ∀ (rest : List CsvRow) (m : Index), r ∈ rest →
      ∃ v, (rest.foldl insert_row m)
        (mkKey (normalize_drug_name r.drug1) (normalize_drug_name r.drug2)) = some v := by
    intro rest
    induction rest with
    | nil => intro m h; cases h
    | cons q qs ih =>
      intro m h
      rcases List.mem_cons.mp h with rfl | hmem
      · exact foldl_insert_keeps_some qs (insert_row m r) _ (insert_row_self_key m r)
      · exact ih (insert_row m q) hmem
  exact main rows empty_index hr

/-- Claim C4 as amended: for every pair stored in the index whose raw
names do not strip to the empty string, and provided no normalized name of
the dataset contains the key-separator character, the two lookup orders
both return a finding and the findings agree on severity, category and
description. -/
theorem interaction_index_symmetric (rows : List CsvRow) (r : CsvRow) (hmem : r ∈ rows)
    (ha : py_strip r.drug1 ≠ "") (hb : py_strip r.drug2 ≠ "")
    (hpf : ∀ q ∈ rows, pipe_free (normalize_drug_name q.drug1) = true ∧
      pipe_free (normalize_drug_name q.drug2) = true) :
    ∃ v w, find_interactions (load_interactions rows) r.drug1 [r.drug2] = [v] ∧
      find_interactions (load_interactions rows) r.drug2 [r.drug1] = [w] ∧
      v.severity = w.severity ∧ v.category = w.category ∧
      v.description = w.description := by
  have hsym : index_sym (load_interactions rows) :=
    foldl_insert_sym rows empty_index (fun x y _ _ => rfl) hpf
  obtain ⟨v, hv⟩ := load_mem_key_some rows r hmem
  have hb' : ¬(r.drug2 = "" ∨ py_strip r.drug2 = "") := by
    rintro (h | h)
    · exact hb (by rw [h]; rfl)
    · exact hb h
  have ha' : ¬(r.drug1 = "" ∨ py_strip r.drug1 = "") := by
    rintro (h | h)
    · exact ha (by rw [h]; rfl)
    · exact ha h
  rw [find_interactions_singleton _ _ _ hb', find_interactions_singleton _ _ _ ha']
  have hkey2 : load_interactions rows
      (mkKey (normalize_drug_name r.drug2) (normalize_drug_name r.drug1)) = some v := by
    rw [hsym _ _ (hpf r hmem).2 (hpf r hmem).1]
    exact hv
  refine ⟨v, v, ?_, ?_, rfl, rfl, rfl⟩
  · rw [hv]
    rfl
  · rw [hkey2]
    rfl

/-- Witness for claim C4 on a concrete one-row dataset. -/
theorem interaction_index_symmetric_witness :
    ∃ v w, find_interactions (load_interactions [CsvRow.mk "Warfarin" "Aspirin" "x"])
        "Warfarin" ["Aspirin"] = [v] ∧
      find_interactions (load_interactions [CsvRow.mk "Warfarin" "Aspirin" "x"])
        "Aspirin" ["Warfarin"] = [w] ∧
      v.severity = w.severity ∧ v.category = w.category ∧
      v.description = w.description :=
  interaction_index_symmetric [CsvRow.mk "Warfarin" "Aspirin" "x"]
    (CsvRow.mk "Warfarin" "Aspirin" "x") (by decide) (by decide) (by decide) (by decide)

/-- A one-row dataset whose second drug name is whitespace-only. -/
def blank_pair_rows : List CsvRow :=
  [{ drug1 := "x", drug2 := " ", description := "d" }]

/-- A dataset whose drug names contain the key-separator character, so the
concatenated keys of its two distinct pairs collide on "a|b|c". -/
def pipe_collision_rows : List CsvRow :=
  [{ drug1 := "a", drug2 := "b|c", description := "d1" },
   { drug1 := "a|b", drug2 := "c", description := "d2" }]

/-- Counterexample to claim C4 as stated, exhibiting both failure modes the
amendment excludes.  First, the pair ("x", " ") is present in the loaded
dataset, yet the lookup returns no finding at all, because
`find_interactions` skips whitespace-only entries of the other-drugs list.
Second, for the stored pair ("a", "b|c") — both names stripping to
nonempty strings — the two lookup orders return findings with different
descriptions: the key "a|b|c" of ("a", "b|c") is also the key of the other
stored pair ("a|b", "c"), whose later insertion overwrites it, while the
reversed key "b|c|a" still holds the original record. -/
theorem find_interactions_pair_lookup_failures :
    (CsvRow.mk "x" " " "d" ∈ blank_pair_rows ∧
      find_interactions (load_interactions blank_pair_rows) "x" [" "] = []) ∧
    (CsvRow.mk "a" "b|c" "d1" ∈ pipe_collision_rows ∧
      py_strip "a" ≠ "" ∧ py_strip "b|c" ≠ "" ∧
      (find_interactions (load_interactions pipe_collision_rows) "a" ["b|c"]).map
        InteractionData.description = ["d2"] ∧
      (find_interactions (load_interactions pipe_collision_rows) "b|c" ["a"]).map
        InteractionData.description = ["d1"]) := by decide
